import Mathlib

/-!
# FertiSmart recommendation pipeline: a shallow embedding

This file embeds the decision logic of the FertiSmart backend
(`backend/app/services/recommendation_service.py` and
`backend/app/services/classification_service.py`) in Lean 4 and proves
properties of it.

Modelling conventions:
* Python floats are modelled as rationals (`ℚ`); `round(x, 1)` is modelled
  by `pyRound1`, an idealized decimal round-half-to-even on `ℚ`.
* Python dicts with a fixed key set become structures; a key that is present
  only for some records becomes an `Option` field.
* The filesystem directory `trained_models/` becomes an explicit `ModelStore`
  argument (a partial map from artifact name to a loaded model); a persisted
  classifier is a black box `TrainedModel` exposing its prediction and,
  optionally, its maximum posterior class probability.
* `list.sort(key=..., reverse=True)` (a stable sort) is modelled with
  `List.mergeSort` and an explicit boolean comparison.
-/

namespace FertiSmart

/-- Raw measurement set handed to the pipeline: the seven numeric fields
`N, P, K, temperature, humidity, ph, rainfall` of the request payload. -/
structure SoilSample where
  N : ℚ
  P : ℚ
  K : ℚ
  temperature : ℚ
  humidity : ℚ
  ph : ℚ
  rainfall : ℚ
deriving DecidableEq

/-- Executable floor on `ℚ` (numerator floor-divided by denominator). -/
def ratFloor (q : ℚ) : ℤ := q.num.fdiv q.den

theorem ratFloor_eq_floor (q : ℚ) : ratFloor q = ⌊q⌋ := by
  rw [Rat.floor_def, ratFloor, Int.fdiv_eq_ediv _ (by positivity)]

theorem ratFloor_eq_of {q : ℚ} {n : ℤ} (h1 : (n : ℚ) ≤ q) (h2 : q < n + 1) :
    ratFloor q = n := by
  rw [ratFloor_eq_floor]
  exact Int.floor_eq_iff.mpr ⟨h1, h2⟩

/-- Round a rational to the nearest integer, ties to even
(the rounding of Python `round`, idealized over `ℚ`). -/
def pyRoundInt (y : ℚ) : ℤ :=
  if y - ratFloor y < 1/2 then ratFloor y
  else if (1 : ℚ)/2 < y - ratFloor y then ratFloor y + 1
  else if ratFloor y % 2 = 0 then ratFloor y else ratFloor y + 1

/-- Python `round(x, 1)`, idealized over `ℚ`. -/
def pyRound1 (x : ℚ) : ℚ := (pyRoundInt (x * 10) : ℚ) / 10

theorem le_pyRoundInt (y : ℚ) : ratFloor y ≤ pyRoundInt y := by
  unfold pyRoundInt
  split_ifs <;> omega

theorem pyRoundInt_le (y : ℚ) : (pyRoundInt y : ℚ) ≤ y + 1/2 := by
  have hf : (ratFloor y : ℚ) ≤ y := by
    rw [ratFloor_eq_floor]; exact Int.floor_le y
  unfold pyRoundInt
  split_ifs with h1 h2 h3 <;> push_cast <;> linarith

theorem pyRound1_nonneg {x : ℚ} (hx : 0 ≤ x) : 0 ≤ pyRound1 x := by
  have h0 : (0 : ℤ) ≤ ratFloor (x * 10) := by
    rw [ratFloor_eq_floor]
    exact Int.floor_nonneg.mpr (by linarith)
  have h1 : (0 : ℤ) ≤ pyRoundInt (x * 10) := le_trans h0 (le_pyRoundInt _)
  unfold pyRound1
  positivity

theorem pyRound1_le_100 {x : ℚ} (hx : x ≤ 100) : pyRound1 x ≤ 100 := by
  have h1 : (pyRoundInt (x * 10) : ℚ) ≤ x * 10 + 1/2 := pyRoundInt_le _
  have h2 : (pyRoundInt (x * 10) : ℚ) < 1001 := by linarith
  have h3 : pyRoundInt (x * 10) < 1001 := by exact_mod_cast h2
  have h4 : (pyRoundInt (x * 10) : ℚ) ≤ 1000 := by exact_mod_cast Int.lt_add_one_iff.mp h3
  unfold pyRound1
  linarith

/-- Source `_calculate_fertility_score`: per-nutrient scores capped at 1.0, a
piecewise pH score, a weighted average scaled to 0-100, rounded to one
decimal place. -/
def calculateFertilityScore (s : SoilSample) : ℚ :=
  let n_score := min (s.N / 80) 1
  let p_score := min (s.P / 60) 1
  let k_score := min (s.K / 70) 1
  let ph_score : ℚ :=
    if 6.5 ≤ s.ph ∧ s.ph ≤ 7 then 1
    else if (6 ≤ s.ph ∧ s.ph < 6.5) ∨ (7 < s.ph ∧ s.ph ≤ 7.5) then 0.8
    else if (5.5 ≤ s.ph ∧ s.ph < 6) ∨ (7.5 < s.ph ∧ s.ph ≤ 8) then 0.6
    else 0.3
  pyRound1 ((n_score * 0.3 + p_score * 0.25 + k_score * 0.25 + ph_score * 0.2) * 100)

/-- Source `_get_overall_condition`: qualitative label for a fertility score. -/
def getOverallCondition (fertility_score : ℚ) : String :=
  if fertility_score ≥ 80 then "Excellent"
  else if fertility_score ≥ 60 then "Good"
  else if fertility_score ≥ 40 then "Fair"
  else "Poor"

/-- One crop suggestion of the rule engine
(`_get_rule_based_recommendations`, `crop_recommendations` entries). -/
structure CropRec where
  crop : String
  fertilizer : String
  confidence : ℚ
  reason : String
deriving DecidableEq

/-- One nutrient-deficiency correction (`nutrient_corrections` entries). -/
structure NutrientCorrection where
  nutrient : String
  status : String
  fertilizer : String
  application_rate : String
  priority : String
deriving DecidableEq

/-- One pH correction (`ph_corrections` entries). The source renders the
rate as the string of the number followed by " kg/ha"; the numeric value is
kept here. -/
structure PhCorrection where
  issue : String
  correction : String
  material : String
  rate : ℚ
  timing : String
deriving DecidableEq

/-- The one record `_get_rule_based_recommendations` appends to its result
list (`'source': 'rule_based'` plus the three candidate lists). -/
structure RuleBasedRec where
  source : String
  crop_recommendations : List CropRec
  nutrient_corrections : List NutrientCorrection
  ph_corrections : List PhCorrection
deriving DecidableEq

def riceRec : CropRec :=
  ⟨"rice", "urea", 0.9, "High nitrogen, humidity, and rainfall suitable for rice"⟩

def wheatRec : CropRec :=
  ⟨"wheat", "DAP", 0.8, "Optimal temperature and pH range for wheat"⟩

def maizeRec : CropRec :=
  ⟨"maize", "NPK_complex", 0.85, "High temperature and balanced NPK for maize"⟩

def soybeanRec : CropRec :=
  ⟨"soybean", "phosphate_fertilizer", 0.75, "Good phosphorus levels and pH for legumes"⟩

def cottonRec : CropRec :=
  ⟨"cotton", "potash_fertilizer", 0.8, "High temperature, potassium, and low rainfall for cotton"⟩

/-- The five threshold crop rules, appended in source order. -/
def cropRecommendationsOf (s : SoilSample) : List CropRec :=
  (if s.N > 70 ∧ s.humidity > 80 ∧ s.rainfall > 200 then [riceRec] else []) ++
  (if 20 ≤ s.temperature ∧ s.temperature ≤ 25 ∧ 6 ≤ s.ph ∧ s.ph ≤ 7.5 then [wheatRec] else []) ++
  (if s.temperature > 25 ∧ s.N > 50 ∧ s.K > 30 then [maizeRec] else []) ++
  (if s.P > 40 ∧ 6 ≤ s.ph ∧ s.ph ≤ 7 then [soybeanRec] else []) ++
  (if s.temperature > 27 ∧ s.K > 40 ∧ s.rainfall < 150 then [cottonRec] else [])

/-- The three deficiency checks, appended in source order. -/
def nutrientCorrectionsOf (s : SoilSample) : List NutrientCorrection :=
  (if s.N < 30 then [⟨"Nitrogen", "Deficient", "urea", "120-150 kg/ha", "High"⟩] else []) ++
  (if s.P < 20 then [⟨"Phosphorus", "Deficient", "DAP", "60-80 kg/ha", "Medium"⟩] else []) ++
  (if s.K < 25 then [⟨"Potassium", "Deficient", "MOP", "50-75 kg/ha", "Medium"⟩] else [])

/-- The two pH-correction checks (an `if`/`elif`, so at most one fires). -/
def phCorrectionsOf (s : SoilSample) : List PhCorrection :=
  if s.ph < 6 then
    [⟨"Acidic soil", "lime_application", "Agricultural lime", (6.5 - s.ph) * 500,
      "Apply 2-3 months before planting"⟩]
  else if s.ph > 8 then
    [⟨"Alkaline soil", "sulfur_application", "Elemental sulfur", (s.ph - 7) * 200,
      "Apply and incorporate before planting"⟩]
  else []

/-- Source `_get_rule_based_recommendations`: one record holding the three
candidate lists. -/
def ruleBasedRecommendations (s : SoilSample) : List RuleBasedRec :=
  [⟨"rule_based", cropRecommendationsOf s, nutrientCorrectionsOf s, phCorrectionsOf s⟩]

/-- A loaded classifier artifact, as a black box: its prediction on a
feature vector, and — when the underlying model exposes `predict_proba` —
the maximum posterior class probability `np.max(proba[0])`. -/
structure TrainedModel where
  predict : List ℚ → ℤ
  predictProbaMax : Option (List ℚ → ℚ)

/-- The `trained_models/` directory: artifact name to loaded model
(`none` models a missing `.pkl` file). -/
abbrev ModelStore := String → Option TrainedModel

/-- The crop label table of `_decode_prediction` (13 entries). -/
def cropMapping : List String :=
  ["rice", "maize", "wheat", "soybean", "cotton", "chickpea", "kidneybeans",
   "pigeonpeas", "mothbeans", "mungbean", "blackgram", "lentil", "pomegranate"]

/-- The fertilizer table of `_decode_prediction` (6 entries). -/
def fertilizerMapping : List String :=
  ["urea", "DAP", "NPK_complex", "phosphate_fertilizer", "potash_fertilizer",
   "organic_compost"]

/-- Source `_decode_prediction`: the label modulo each table size indexes the
table (`%` on a positive modulus is non-negative in Python and in `Int.emod`,
so the defaults are unreachable). -/
def decodePrediction (prediction_value : ℤ) : String × String :=
  (cropMapping.getD (prediction_value % 13).toNat "unknown",
   fertilizerMapping.getD (prediction_value % 6).toNat "NPK_complex")

/-- One ML candidate of `_get_ml_recommendations`
(`'source': 'ml_model'` plus the fields below). -/
structure MLRec where
  model : String
  crop : String
  fertilizer : String
  confidence : ℚ
  prediction_value : ℤ

def cropModelNames : List String := ["decision_tree_crop", "naive_bayes_crop"]

/-- Source `_get_ml_recommendations`: for each of the two crop models, if its
artifact exists, predict and append a candidate; a missing artifact is
skipped silently. Confidence defaults to 0.8 when the model exposes no
`predict_proba`. -/
def getMLRecommendations (store : ModelStore) (processed_features : List ℚ) :
    List MLRec :=
  cropModelNames.foldl
    (fun recommendations model_name =>
      match store model_name with
      | none => recommendations
      | some model =>
        let prediction := model.predict processed_features
        let confidence :=
          match model.predictProbaMax with
          | none => (0.8 : ℚ)
          | some probaMax => probaMax processed_features
        let cf := decodePrediction prediction
        recommendations ++ [⟨model_name, cf.1, cf.2, confidence, prediction⟩])
    []

/-- Result record of `predict_single`. `confidence` mirrors the source's
`float(confidence) if confidence else None`: `None` both when the model has
no `predict_proba` and when the probability is 0 (Python truthiness). -/
structure PredResult where
  prediction : ℤ
  confidence : Option ℚ
  model_type : String
  target : String

/-- Source `predict_single` of `ClassificationService`: a missing artifact raises
`FileNotFoundError(f"Model {name} not found. Please train the model
first.")`, which the blanket `except` wraps into a generic
`Exception(f"Prediction failed: {e}")` — modelled as `Except.error` with
that message. -/
def predictSingle (store : ModelStore) (model_type target : String)
    (input_features : List ℚ) : Except String PredResult :=
  let model_name := model_type ++ "_" ++ target
  match store model_name with
  | none =>
    Except.error ("Prediction failed: Model " ++ model_name ++
      " not found. Please train the model first.")
  | some model =>
    let prediction := model.predict input_features
    let confidence : Option ℚ :=
      match model.predictProbaMax with
      | none => none
      | some probaMax =>
        let c := probaMax input_features
        if c = 0 then none else some c
    Except.ok ⟨prediction, confidence, model_type, target⟩

/-- The `'type'` key of a combined recommendation dict. `'ph_correction'`
never occurs in the source's combiner, but the kind exists in the pipeline's
vocabulary (the rule engine computes pH corrections). -/
inductive RecKind
  | crop_fertilizer
  | nutrient_correction
  | ph_correction
deriving DecidableEq

/-- One entry of the combined list built by `_combine_recommendations`.
Keys present only on some entries are `Option` fields: in particular
`nutrient_correction` entries carry no `confidence` key. -/
structure CombinedRec where
  type : RecKind
  crop : Option String
  fertilizer : String
  confidence : Option ℚ
  application_rate : Option String
  nutrient : Option String
  source : String
  reason : Option String
  priority : String
deriving DecidableEq

/-- How an ML candidate enters the combined list. -/
def mlToCombined (m : MLRec) : CombinedRec where
  type := .crop_fertilizer
  crop := some m.crop
  fertilizer := m.fertilizer
  confidence := some m.confidence
  application_rate := none
  nutrient := none
  source := "ML Model (" ++ m.model ++ ")"
  reason := none
  priority := if m.confidence > 0.8 then "High" else "Medium"

/-- How a rule-engine crop candidate enters the combined list. -/
def cropToCombined (c : CropRec) : CombinedRec where
  type := .crop_fertilizer
  crop := some c.crop
  fertilizer := c.fertilizer
  confidence := some c.confidence
  application_rate := none
  nutrient := none
  source := "Agronomic Rules"
  reason := some c.reason
  priority := if c.confidence > 0.8 then "High" else "Medium"

/-- How a nutrient correction enters the combined list (no confidence). -/
def nutrientToCombined (n : NutrientCorrection) : CombinedRec where
  type := .nutrient_correction
  crop := none
  fertilizer := n.fertilizer
  confidence := none
  application_rate := some n.application_rate
  nutrient := some n.nutrient
  source := "Nutrient Analysis"
  reason := none
  priority := n.priority

/-- The unsorted `combined` list of `_combine_recommendations`: ML entries
in order, then per rule record its crop entries, then its nutrient entries.
pH corrections are never read. -/
def buildCandidates (ml_recs : List MLRec) (rule_recs : List RuleBasedRec) :
    List CombinedRec :=
  ml_recs.map mlToCombined ++
  rule_recs.flatMap (fun r =>
    r.crop_recommendations.map cropToCombined ++
    r.nutrient_corrections.map nutrientToCombined)

/-- The sort key `(x.get('priority') == 'High', x.get('confidence', 0))`,
first component as 0/1. -/
def priorityFlag (x : CombinedRec) : ℕ := if x.priority = "High" then 1 else 0

def confidenceOrZero (x : CombinedRec) : ℚ := x.confidence.getD 0

/-- Whether `a` may precede `b` under `combined.sort(key=..., reverse=True)`:
the key of `a` is lexicographically at least the key of `b`. -/
def sortGE (a b : CombinedRec) : Bool :=
  decide (priorityFlag b < priorityFlag a ∨
    (priorityFlag a = priorityFlag b ∧ confidenceOrZero b ≤ confidenceOrZero a))

/-- Source `_combine_recommendations`: build, sort descending by
(priority == High, confidence), return the top 5. -/
def combineRecommendations (ml_recs : List MLRec) (rule_recs : List RuleBasedRec) :
    List CombinedRec :=
  ((buildCandidates ml_recs rule_recs).mergeSort sortGE).take 5

/-- Source `_generate_explanation` (string interpolation of the source's
f-strings, numbers printed through `toString`). -/
def generateExplanation (recommendation : CombinedRec) (soil_data : SoilSample) :
    String :=
  match recommendation.type with
  | .crop_fertilizer =>
    "Based on your soil's NPK levels (" ++ toString soil_data.N ++ "-" ++
      toString soil_data.P ++ "-" ++ toString soil_data.K ++
      ") and environmental conditions, " ++ recommendation.crop.getD "" ++
      " is suitable for cultivation with " ++ recommendation.fertilizer ++
      " fertilizer."
  | .nutrient_correction =>
    "Your soil shows " ++ (recommendation.nutrient.getD "").toLower ++
      " deficiency. Applying " ++ recommendation.fertilizer ++
      " will help correct this imbalance."
  | .ph_correction => "Recommendation based on soil analysis results."

/-- Source `_get_benefits`. -/
def getBenefits (recommendation : CombinedRec) : List String :=
  match recommendation.type with
  | .crop_fertilizer =>
    ["Optimized crop yield", "Efficient nutrient utilization",
     "Improved soil health", "Cost-effective farming"]
  | .nutrient_correction =>
    ["Corrected nutrient deficiency", "Enhanced plant growth",
     "Better root development", "Improved disease resistance"]
  | .ph_correction => []

/-- Source `_get_precautions`. -/
def getPrecautions (recommendation : CombinedRec) : List String :=
  let precautions :=
    ["Follow recommended application rates", "Apply fertilizer at appropriate timing",
     "Consider weather conditions", "Monitor soil moisture levels"]
  if recommendation.fertilizer = "urea" then
    precautions ++ ["Apply urea when soil moisture is adequate"]
  else precautions

/-- A combined entry with the three fields `_add_explanations` adds. -/
structure ExplainedRec extends CombinedRec where
  explanation : String
  benefits : List String
  precautions : List String

/-- Source `_add_explanations`: decorate each recommendation, preserving order. -/
def addExplanations (recommendations : List CombinedRec) (soil_data : SoilSample) :
    List ExplainedRec :=
  recommendations.map (fun rec =>
    { toCombinedRec := rec
      explanation := generateExplanation rec soil_data
      benefits := getBenefits rec
      precautions := getPrecautions rec })

/-- Written from the spec's words (§4.5): the piecewise pH-quality score. -/
def specPhQuality (ph : ℚ) : ℚ :=
  if 6.5 ≤ ph ∧ ph ≤ 7 then 1
  else if (6 ≤ ph ∧ ph < 6.5) ∨ (7 < ph ∧ ph ≤ 7.5) then 0.8
  else if (5.5 ≤ ph ∧ ph < 6) ∨ (7.5 < ph ∧ ph ≤ 8) then 0.6
  else 0.3

/-- Written from the spec's words (§4.5): the exact, unrounded fertility
value `100 × (0.30·N + 0.25·P + 0.25·K + 0.20·pH_quality)` with per-nutrient
scores `value / documented-optimum` capped at 1.0. Compared against
`calculateFertilityScore`, which embeds the source. -/
def specFertilityValue (s : SoilSample) : ℚ :=
  100 * (0.30 * min (s.N / 80) 1 + 0.25 * min (s.P / 60) 1 +
    0.25 * min (s.K / 70) 1 + 0.20 * specPhQuality s.ph)

/-! ## Helper lemmas -/

theorem mem_ite_singleton_self {α : Type} {P : Prop} [Decidable P] {a : α}
    (h : P) : a ∈ (if P then [a] else []) := by
  rw [if_pos h]
  exact List.mem_singleton_self a

theorem nutrient_scores_bounds (s : SoilSample) (hN : 0 ≤ s.N) (hP : 0 ≤ s.P)
    (hK : 0 ≤ s.K) :
    (0 ≤ min (s.N / 80) 1 ∧ min (s.N / 80) 1 ≤ 1) ∧
    (0 ≤ min (s.P / 60) 1 ∧ min (s.P / 60) 1 ≤ 1) ∧
    (0 ≤ min (s.K / 70) 1 ∧ min (s.K / 70) 1 ≤ 1) :=
  ⟨⟨le_min (by positivity) (by norm_num), min_le_right _ _⟩,
   ⟨le_min (by positivity) (by norm_num), min_le_right _ _⟩,
   ⟨le_min (by positivity) (by norm_num), min_le_right _ _⟩⟩

theorem calculateFertilityScore_bounds (s : SoilSample) (hN : 0 ≤ s.N)
    (hP : 0 ≤ s.P) (hK : 0 ≤ s.K) :
    0 ≤ calculateFertilityScore s ∧ calculateFertilityScore s ≤ 100 := by
  obtain ⟨⟨hn0, hn1⟩, ⟨hp0, hp1⟩, ⟨hk0, hk1⟩⟩ := nutrient_scores_bounds s hN hP hK
  unfold calculateFertilityScore
  constructor
  · apply pyRound1_nonneg
    split_ifs <;> nlinarith
  · apply pyRound1_le_100
    split_ifs <;> nlinarith

theorem eq_of_mem_ite_singleton {α : Type} {P : Prop} [Decidable P] {a x : α}
    (h : x ∈ (if P then [a] else [])) : x = a := by
  split at h
  · exact List.mem_singleton.mp h
  · exact absurd h (List.not_mem_nil x)

theorem string_ne_empty_of_length_pos {a : String} (h : a.length ≠ 0) : a ≠ "" := by
  intro he
  exact h (he ▸ rfl)

theorem append_ne_empty_left {a : String} (h : a ≠ "") (b : String) :
    a ++ b ≠ "" := by
  intro he
  apply h
  have hl := congrArg String.length he
  rw [String.length_append] at hl
  have h0 : a.length = 0 := by
    have hz : String.length "" = 0 := rfl
    omega
  cases a with
  | mk data =>
    cases data with
    | nil => rfl
    | cons c cs => simp [String.length] at h0

theorem generateExplanation_ne_empty (r : CombinedRec) (s : SoilSample) :
    generateExplanation r s ≠ "" := by
  unfold generateExplanation
  cases h : r.type <;> simp only <;>
    (repeat apply append_ne_empty_left) <;> decide

theorem mem_of_mem_combineRecommendations {r : CombinedRec}
    {ml_recs : List MLRec} {rule_recs : List RuleBasedRec}
    (h : r ∈ combineRecommendations ml_recs rule_recs) :
    r ∈ buildCandidates ml_recs rule_recs :=
  List.mem_mergeSort.mp (List.mem_of_mem_take h)

theorem mem_buildCandidates_cases {r : CombinedRec} {ml_recs : List MLRec}
    {rule_recs : List RuleBasedRec} (h : r ∈ buildCandidates ml_recs rule_recs) :
    (∃ m ∈ ml_recs, r = mlToCombined m) ∨
    (∃ rb ∈ rule_recs, ∃ c ∈ rb.crop_recommendations, r = cropToCombined c) ∨
    (∃ rb ∈ rule_recs, ∃ n ∈ rb.nutrient_corrections, r = nutrientToCombined n) := by
  unfold buildCandidates at h
  rcases List.mem_append.mp h with h | h
  · obtain ⟨m, hm, rfl⟩ := List.mem_map.mp h
    exact Or.inl ⟨m, hm, rfl⟩
  · obtain ⟨rb, hrb, hr⟩ := List.mem_flatMap.mp h
    rcases List.mem_append.mp hr with h2 | h2
    · obtain ⟨c, hc, rfl⟩ := List.mem_map.mp h2
      exact Or.inr (Or.inl ⟨rb, hrb, c, hc, rfl⟩)
    · obtain ⟨n, hn, rfl⟩ := List.mem_map.mp h2
      exact Or.inr (Or.inr ⟨rb, hrb, n, hn, rfl⟩)

theorem cropRec_confidence_in_unit (s : SoilSample) :
    ∀ c ∈ cropRecommendationsOf s, 0 ≤ c.confidence ∧ c.confidence ≤ 1 := by
  intro c hc
  unfold cropRecommendationsOf at hc
  rcases List.mem_append.mp hc with h | h
  · rcases List.mem_append.mp h with h | h
    · rcases List.mem_append.mp h with h | h
      · rcases List.mem_append.mp h with h | h
        · rw [eq_of_mem_ite_singleton h]
          norm_num [riceRec]
        · rw [eq_of_mem_ite_singleton h]
          norm_num [wheatRec]
      · rw [eq_of_mem_ite_singleton h]
        norm_num [maizeRec]
    · rw [eq_of_mem_ite_singleton h]
      norm_num [soybeanRec]
  · rw [eq_of_mem_ite_singleton h]
    norm_num [cottonRec]

theorem priorityFlag_le_one (x : CombinedRec) : priorityFlag x ≤ 1 := by
  unfold priorityFlag
  split <;> omega

theorem priorityFlag_eq_one_iff (x : CombinedRec) :
    priorityFlag x = 1 ↔ x.priority = "High" := by
  unfold priorityFlag
  split <;> simp_all

theorem sortGE_total (a b : CombinedRec) : (sortGE a b || sortGE b a) = true := by
  simp only [sortGE, Bool.or_eq_true, decide_eq_true_eq]
  rcases lt_trichotomy (priorityFlag a) (priorityFlag b) with h | h | h
  · exact Or.inr (Or.inl h)
  · rcases le_total (confidenceOrZero b) (confidenceOrZero a) with hc | hc
    · exact Or.inl (Or.inr ⟨h, hc⟩)
    · exact Or.inr (Or.inr ⟨h.symm, hc⟩)
  · exact Or.inl (Or.inl h)

theorem sortGE_trans (a b c : CombinedRec) (hab : sortGE a b = true)
    (hbc : sortGE b c = true) : sortGE a c = true := by
  simp only [sortGE, decide_eq_true_eq] at hab hbc ⊢
  rcases hab with h1 | ⟨h1, h1c⟩ <;> rcases hbc with h2 | ⟨h2, h2c⟩
  · exact Or.inl (by omega)
  · exact Or.inl (by omega)
  · exact Or.inl (by omega)
  · exact Or.inr ⟨by omega, le_trans h2c h1c⟩

theorem sortGE_implies_order {a b : CombinedRec} (h : sortGE a b = true) :
    (b.priority = "High" → a.priority = "High") ∧
    (a.priority = b.priority → confidenceOrZero b ≤ confidenceOrZero a) := by
  simp only [sortGE, decide_eq_true_eq] at h
  constructor
  · intro hb
    have hfb : priorityFlag b = 1 := (priorityFlag_eq_one_iff b).mpr hb
    have hle : priorityFlag a ≤ 1 := priorityFlag_le_one a
    apply (priorityFlag_eq_one_iff a).mp
    rcases h with h | ⟨h, _⟩ <;> omega
  · intro hab
    have hf : priorityFlag a = priorityFlag b := by
      unfold priorityFlag
      rw [hab]
    rcases h with h | ⟨_, hc⟩
    · omega
    · exact hc

/-! ## The claims -/

/-- C1: for every valid `SoilSample` (all seven numeric fields present, and
N, P, K non-negative) the fertility score lies in [0, 100], and the
overall-condition mapping assigns exactly one of the four labels: a score
of at least 80 gives Excellent, at least 60 Good, at least 40 Fair, and
otherwise Poor. -/
theorem fertility_score_in_range_and_condition (s : SoilSample)
    (hN : 0 ≤ s.N) (hP : 0 ≤ s.P) (hK : 0 ≤ s.K) :
    0 ≤ calculateFertilityScore s ∧ calculateFertilityScore s ≤ 100 ∧
    getOverallCondition (calculateFertilityScore s) ∈
      (["Excellent", "Good", "Fair", "Poor"] : List String) ∧
    (80 ≤ calculateFertilityScore s →
      getOverallCondition (calculateFertilityScore s) = "Excellent") ∧
    (60 ≤ calculateFertilityScore s → calculateFertilityScore s < 80 →
      getOverallCondition (calculateFertilityScore s) = "Good") ∧
    (40 ≤ calculateFertilityScore s → calculateFertilityScore s < 60 →
      getOverallCondition (calculateFertilityScore s) = "Fair") ∧
    (calculateFertilityScore s < 40 →
      getOverallCondition (calculateFertilityScore s) = "Poor") := by
  obtain ⟨h0, h1⟩ := calculateFertilityScore_bounds s hN hP hK
  refine ⟨h0, h1, ?_, fun h => ?_, fun ha hb => ?_, fun ha hb => ?_, fun h => ?_⟩ <;>
    unfold getOverallCondition <;>
    split_ifs <;>
    first
      | rfl
      | (exfalso; linarith)
      | simp

/-- Witness for C1 at N=90, P=42, K=43, pH=6.5: the hypotheses hold and the
score and label behave as stated. -/
theorem fertility_score_in_range_and_condition_witness :
    (0 : ℚ) ≤ 90 ∧ (0 : ℚ) ≤ 42 ∧ (0 : ℚ) ≤ 43 ∧
    (0 ≤ calculateFertilityScore ⟨90, 42, 43, 20.8, 82, 6.5, 202.9⟩ ∧
     calculateFertilityScore ⟨90, 42, 43, 20.8, 82, 6.5, 202.9⟩ ≤ 100 ∧
     getOverallCondition (calculateFertilityScore ⟨90, 42, 43, 20.8, 82, 6.5, 202.9⟩) ∈
       (["Excellent", "Good", "Fair", "Poor"] : List String)) :=
  ⟨by norm_num, by norm_num, by norm_num,
   (fertility_score_in_range_and_condition ⟨90, 42, 43, 20.8, 82, 6.5, 202.9⟩
      (by norm_num) (by norm_num) (by norm_num)).1,
   (fertility_score_in_range_and_condition ⟨90, 42, 43, 20.8, 82, 6.5, 202.9⟩
      (by norm_num) (by norm_num) (by norm_num)).2.1,
   (fertility_score_in_range_and_condition ⟨90, 42, 43, 20.8, 82, 6.5, 202.9⟩
      (by norm_num) (by norm_num) (by norm_num)).2.2.1⟩

/-- C4 counterexample: at N=1, P=0, K=0, pH=5 the scorer returns 6.4 while
100·(0.30·(1/80) + 0.25·0 + 0.25·0 + 0.20·0.3) = 6.375: the source rounds
the weighted value to one decimal place, so the returned score does not
equal the exact weighted value. -/
theorem fertility_score_not_exact_weighted_value :
    calculateFertilityScore ⟨1, 0, 0, 20.8, 82, 5, 202.9⟩ ≠
      specFertilityValue ⟨1, 0, 0, 20.8, 82, 5, 202.9⟩ := by
  have h : ratFloor (255/4 : ℚ) = 63 := ratFloor_eq_of (by norm_num) (by norm_num)
  norm_num [calculateFertilityScore, pyRound1, pyRoundInt, h,
    specFertilityValue, specPhQuality]

/-- C4 amended: the fertility scorer computes the spec's weighted value —
per-nutrient scores value/optimum capped at 1.0, the piecewise pH-quality
bands, and the 0.30/0.25/0.25/0.20 weights scaled by 100 — and returns it
rounded to one decimal place. -/
theorem fertility_score_is_rounded_weighted_value (s : SoilSample) :
    calculateFertilityScore s = pyRound1 (specFertilityValue s) := by
  unfold calculateFertilityScore specFertilityValue specPhQuality
  ring_nf

/-- C6: on N=90, P=42, K=43, pH=6.5, temperature=20.8, humidity=82.0,
rainfall=202.9 the rule engine emits a rice/urea candidate with
confidence 0.9. -/
theorem rule_engine_emits_rice_urea :
    ∃ r ∈ ruleBasedRecommendations ⟨90, 42, 43, 20.8, 82, 6.5, 202.9⟩,
      ∃ c ∈ r.crop_recommendations,
        c.crop = "rice" ∧ c.fertilizer = "urea" ∧ c.confidence = 0.9 := by
  refine ⟨_, List.mem_singleton_self _, riceRec, ?_, by norm_num [riceRec]⟩
  show riceRec ∈ cropRecommendationsOf _
  exact List.mem_append_left _ (List.mem_append_left _ (List.mem_append_left _
    (List.mem_append_left _ (mem_ite_singleton_self (by norm_num)))))

/-- C7: whenever pH = 5.0 the rule engine emits a pH-correction candidate
with correction `lime_application` and rate (6.5 - 5.0) · 500 = 750 kg/ha. -/
theorem rule_engine_lime_rate_750 (s : SoilSample) (h : s.ph = 5) :
    ∃ r ∈ ruleBasedRecommendations s, ∃ c ∈ r.ph_corrections,
      c.correction = "lime_application" ∧ c.rate = 750 := by
  refine ⟨_, List.mem_singleton_self _, ?_⟩
  show ∃ c ∈ phCorrectionsOf s, _
  rw [phCorrectionsOf, if_pos (by rw [h]; norm_num)]
  exact ⟨_, List.mem_singleton_self _, rfl, by rw [h]; norm_num⟩

/-- Witness for C7 at the sample (50, 30, 30, 25, 60, 5, 100). -/
theorem rule_engine_lime_rate_750_witness :
    (⟨50, 30, 30, 25, 60, 5, 100⟩ : SoilSample).ph = 5 ∧
    ∃ r ∈ ruleBasedRecommendations ⟨50, 30, 30, 25, 60, 5, 100⟩,
      ∃ c ∈ r.ph_corrections,
        c.correction = "lime_application" ∧ c.rate = 750 :=
  ⟨rfl, rule_engine_lime_rate_750 ⟨50, 30, 30, 25, 60, 5, 100⟩ rfl⟩

/-- C8: whenever N = 20 (below the 30 threshold) the rule engine emits a
nutrient-correction candidate for Nitrogen with application rate
"120-150 kg/ha" and priority High. -/
theorem rule_engine_nitrogen_correction (s : SoilSample) (h : s.N = 20) :
    ∃ r ∈ ruleBasedRecommendations s, ∃ n ∈ r.nutrient_corrections,
      n.nutrient = "Nitrogen" ∧ n.application_rate = "120-150 kg/ha" ∧
      n.priority = "High" := by
  refine ⟨_, List.mem_singleton_self _, ?_⟩
  show ∃ n ∈ nutrientCorrectionsOf s, _
  refine ⟨_, List.mem_append_left _ (List.mem_append_left _
    (mem_ite_singleton_self (show s.N < 30 by rw [h]; norm_num))), rfl, rfl, rfl⟩

/-- Witness for C8 at the sample (20, 50, 50, 22, 60, 6.5, 100). -/
theorem rule_engine_nitrogen_correction_witness :
    (⟨20, 50, 50, 22, 60, 6.5, 100⟩ : SoilSample).N = 20 ∧
    ∃ r ∈ ruleBasedRecommendations ⟨20, 50, 50, 22, 60, 6.5, 100⟩,
      ∃ n ∈ r.nutrient_corrections,
        n.nutrient = "Nitrogen" ∧ n.application_rate = "120-150 kg/ha" ∧
        n.priority = "High" :=
  ⟨rfl, rule_engine_nitrogen_correction ⟨20, 50, 50, 22, 60, 6.5, 100⟩ rfl⟩

/-- C9: the five crop rules are evaluated independently with no early exit:
whenever a rule's predicate holds, its candidate is in the rule engine's
crop list, regardless of which other rules also match. -/
theorem rule_engine_rules_independent (s : SoilSample) :
    (s.N > 70 ∧ s.humidity > 80 ∧ s.rainfall > 200 →
      riceRec ∈ cropRecommendationsOf s) ∧
    (20 ≤ s.temperature ∧ s.temperature ≤ 25 ∧ 6 ≤ s.ph ∧ s.ph ≤ 7.5 →
      wheatRec ∈ cropRecommendationsOf s) ∧
    (s.temperature > 25 ∧ s.N > 50 ∧ s.K > 30 →
      maizeRec ∈ cropRecommendationsOf s) ∧
    (s.P > 40 ∧ 6 ≤ s.ph ∧ s.ph ≤ 7 →
      soybeanRec ∈ cropRecommendationsOf s) ∧
    (s.temperature > 27 ∧ s.K > 40 ∧ s.rainfall < 150 →
      cottonRec ∈ cropRecommendationsOf s) := by
  refine ⟨fun h => ?_, fun h => ?_, fun h => ?_, fun h => ?_, fun h => ?_⟩
  · exact List.mem_append_left _ (List.mem_append_left _ (List.mem_append_left _
      (List.mem_append_left _ (mem_ite_singleton_self h))))
  · exact List.mem_append_left _ (List.mem_append_left _ (List.mem_append_left _
      (List.mem_append_right _ (mem_ite_singleton_self h))))
  · exact List.mem_append_left _ (List.mem_append_left _
      (List.mem_append_right _ (mem_ite_singleton_self h)))
  · exact List.mem_append_left _
      (List.mem_append_right _ (mem_ite_singleton_self h))
  · exact List.mem_append_right _ (mem_ite_singleton_self h)

/-- Witness for C9 at a sample matching both the wheat and the soybean
predicates: both candidates are in the output. -/
theorem rule_engine_rules_independent_witness :
    (20 ≤ (⟨50, 45, 40, 22, 60, 6.5, 100⟩ : SoilSample).temperature ∧
     (⟨50, 45, 40, 22, 60, 6.5, 100⟩ : SoilSample).temperature ≤ 25 ∧
     6 ≤ (⟨50, 45, 40, 22, 60, 6.5, 100⟩ : SoilSample).ph ∧
     (⟨50, 45, 40, 22, 60, 6.5, 100⟩ : SoilSample).ph ≤ 7.5) ∧
    ((⟨50, 45, 40, 22, 60, 6.5, 100⟩ : SoilSample).P > 40 ∧
     6 ≤ (⟨50, 45, 40, 22, 60, 6.5, 100⟩ : SoilSample).ph ∧
     (⟨50, 45, 40, 22, 60, 6.5, 100⟩ : SoilSample).ph ≤ 7) ∧
    wheatRec ∈ cropRecommendationsOf ⟨50, 45, 40, 22, 60, 6.5, 100⟩ ∧
    soybeanRec ∈ cropRecommendationsOf ⟨50, 45, 40, 22, 60, 6.5, 100⟩ :=
  ⟨by norm_num, by norm_num,
   (rule_engine_rules_independent ⟨50, 45, 40, 22, 60, 6.5, 100⟩).2.1 (by norm_num),
   (rule_engine_rules_independent ⟨50, 45, 40, 22, 60, 6.5, 100⟩).2.2.2.1 (by norm_num)⟩

/-- C2 counterexample: on the sample (20, 50, 50, 22, 60, 6.5, 100) with no
ML candidates, the fused output contains the Nitrogen nutrient-correction
entry, which carries no confidence key at all — so not every element of the
fused output carries a confidence in [0, 1]. -/
theorem fuser_element_without_confidence :
    ¬ (∀ x ∈ combineRecommendations []
          (ruleBasedRecommendations ⟨20, 50, 50, 22, 60, 6.5, 100⟩),
        ∃ cq : ℚ, x.confidence = some cq ∧ 0 ≤ cq ∧ cq ≤ 1) := by
  intro hall
  have hlist : buildCandidates [] (ruleBasedRecommendations ⟨20, 50, 50, 22, 60, 6.5, 100⟩) =
      [cropToCombined wheatRec, cropToCombined soybeanRec,
       nutrientToCombined ⟨"Nitrogen", "Deficient", "urea", "120-150 kg/ha", "High"⟩] := by
    norm_num [buildCandidates, ruleBasedRecommendations, cropRecommendationsOf,
      nutrientCorrectionsOf]
  have hmem : nutrientToCombined ⟨"Nitrogen", "Deficient", "urea", "120-150 kg/ha", "High"⟩ ∈
      combineRecommendations [] (ruleBasedRecommendations ⟨20, 50, 50, 22, 60, 6.5, 100⟩) := by
    rw [combineRecommendations,
      List.take_of_length_le (by rw [List.length_mergeSort, hlist]; norm_num),
      List.mem_mergeSort, hlist]
    simp
  obtain ⟨cq, hcq, _⟩ := hall _ hmem
  simp [nutrientToCombined] at hcq

/-- C2 amended: the fused, explained output has length at most 5; every
element has a non-empty explanation; every element that carries a
confidence has it in [0, 1], provided the ML candidates' confidences are
in [0, 1] (nutrient-correction entries carry no confidence key). -/
theorem fuser_cap_confidence_explanation (ml_recs : List MLRec)
    (s soil : SoilSample)
    (h : ∀ m ∈ ml_recs, 0 ≤ m.confidence ∧ m.confidence ≤ 1) :
    (addExplanations (combineRecommendations ml_recs (ruleBasedRecommendations s))
        soil).length ≤ 5 ∧
    ∀ x ∈ addExplanations (combineRecommendations ml_recs (ruleBasedRecommendations s))
        soil,
      x.explanation ≠ "" ∧ ∀ cq : ℚ, x.confidence = some cq → 0 ≤ cq ∧ cq ≤ 1 := by
  constructor
  · rw [addExplanations, List.length_map, combineRecommendations, List.length_take]
    exact min_le_left _ _
  · intro x hx
    rw [addExplanations, List.mem_map] at hx
    obtain ⟨r, hr, rfl⟩ := hx
    refine ⟨generateExplanation_ne_empty r soil, ?_⟩
    intro cq hcq
    rcases mem_buildCandidates_cases (mem_of_mem_combineRecommendations hr) with
      ⟨m, hm, rfl⟩ | ⟨rb, hrb, c, hc, rfl⟩ | ⟨rb, hrb, n, hn, rfl⟩
    · have : m.confidence = cq := Option.some.inj hcq
      exact this ▸ h m hm
    · rw [ruleBasedRecommendations, List.mem_singleton] at hrb
      subst hrb
      have : c.confidence = cq := Option.some.inj hcq
      exact this ▸ cropRec_confidence_in_unit s c hc
    · exact absurd hcq (by simp [nutrientToCombined])

/-- Witness for C2 amended: the sample (20, 50, 50, 22, 60, 6.5, 100) with
no ML candidates. -/
theorem fuser_cap_confidence_explanation_witness :
    (∀ m ∈ ([] : List MLRec), 0 ≤ m.confidence ∧ m.confidence ≤ 1) ∧
    (addExplanations (combineRecommendations []
        (ruleBasedRecommendations ⟨20, 50, 50, 22, 60, 6.5, 100⟩))
        ⟨20, 50, 50, 22, 60, 6.5, 100⟩).length ≤ 5 ∧
    ∀ x ∈ addExplanations (combineRecommendations []
        (ruleBasedRecommendations ⟨20, 50, 50, 22, 60, 6.5, 100⟩))
        ⟨20, 50, 50, 22, 60, 6.5, 100⟩,
      x.explanation ≠ "" ∧ ∀ cq : ℚ, x.confidence = some cq → 0 ≤ cq ∧ cq ≤ 1 :=
  ⟨by simp,
   (fuser_cap_confidence_explanation [] ⟨20, 50, 50, 22, 60, 6.5, 100⟩
      ⟨20, 50, 50, 22, 60, 6.5, 100⟩ (by simp)).1,
   (fuser_cap_confidence_explanation [] ⟨20, 50, 50, 22, 60, 6.5, 100⟩
      ⟨20, 50, 50, 22, 60, 6.5, 100⟩ (by simp)).2⟩

/-- C3: the fused output is a top-5 selection of the combined candidates:
it is a permutation of the candidates once the dropped rest is appended,
its length is min(5, number of candidates), it is ordered with every
High-priority element before every Medium-priority element and, within
equal priority, by confidence descending, and every kept element ranks at
least as high as every dropped one. -/
theorem fuser_ordering_and_truncation (ml_recs : List MLRec)
    (rule_recs : List RuleBasedRec) :
    ∃ rest : List CombinedRec,
      List.Perm (combineRecommendations ml_recs rule_recs ++ rest)
        (buildCandidates ml_recs rule_recs) ∧
      (combineRecommendations ml_recs rule_recs).length =
        min 5 (buildCandidates ml_recs rule_recs).length ∧
      List.Pairwise
        (fun a b => (b.priority = "High" → a.priority = "High") ∧
          (a.priority = b.priority → confidenceOrZero b ≤ confidenceOrZero a))
        (combineRecommendations ml_recs rule_recs) ∧
      ∀ a ∈ combineRecommendations ml_recs rule_recs, ∀ b ∈ rest,
        (b.priority = "High" → a.priority = "High") ∧
        (a.priority = b.priority → confidenceOrZero b ≤ confidenceOrZero a) := by
  refine ⟨((buildCandidates ml_recs rule_recs).mergeSort sortGE).drop 5, ?_, ?_, ?_, ?_⟩
  · rw [combineRecommendations, List.take_append_drop]
    exact List.mergeSort_perm _ _
  · rw [combineRecommendations, List.length_take, List.length_mergeSort]
  · exact ((List.sorted_mergeSort sortGE_trans sortGE_total
      (buildCandidates ml_recs rule_recs)).sublist
        (List.take_sublist _ _)).imp sortGE_implies_order
  · have hp := List.sorted_mergeSort sortGE_trans sortGE_total
      (buildCandidates ml_recs rule_recs)
    rw [← List.take_append_drop 5
      ((buildCandidates ml_recs rule_recs).mergeSort sortGE)] at hp
    intro a ha b hb
    exact sortGE_implies_order ((List.pairwise_append.mp hp).2.2 a ha b hb)

/-- C5 counterexample: with every model artifact absent, the recommendation
pipeline's inference adapter fails with nothing at all — it silently
returns an empty candidate list, rather than failing with a distinct
model-not-found error as claimed. -/
theorem ml_adapter_silent_when_model_absent :
    getMLRecommendations (fun _ => none) [90, 42, 43, 20.8, 82, 6.5, 202.9] = [] := rfl

/-- C5 amended: when the requested artifact is absent, `predict_single`
fails with a generic wrapped exception whose message names the missing
model and instructs to train first (not a distinct error type), while the
recommendation pipeline's `_get_ml_recommendations` silently skips absent
models and returns no ML candidates; neither path retries. -/
theorem model_absent_error_and_silent_skip (store : ModelStore)
    (model_type target : String) (input_features processed_features : List ℚ) :
    (store (model_type ++ "_" ++ target) = none →
      predictSingle store model_type target input_features =
        Except.error ("Prediction failed: Model " ++ (model_type ++ "_" ++ target) ++
          " not found. Please train the model first.")) ∧
    (store "decision_tree_crop" = none → store "naive_bayes_crop" = none →
      getMLRecommendations store processed_features = []) := by
  constructor
  · intro h
    simp [predictSingle, h]
  · intro h1 h2
    simp [getMLRecommendations, cropModelNames, h1, h2]

/-- Witness for C5 amended: the empty store. -/
theorem model_absent_error_and_silent_skip_witness :
    ((fun _ => none : ModelStore) ("decision_tree" ++ "_" ++ "crop") = none) ∧
    predictSingle (fun _ => none) "decision_tree" "crop" [] =
      Except.error ("Prediction failed: Model " ++ ("decision_tree" ++ "_" ++ "crop") ++
        " not found. Please train the model first.") ∧
    getMLRecommendations (fun _ => none) [] = [] :=
  ⟨rfl,
   (model_absent_error_and_silent_skip (fun _ => none) "decision_tree" "crop" [] []).1 rfl,
   (model_absent_error_and_silent_skip (fun _ => none) "decision_tree" "crop" [] []).2 rfl rfl⟩

/-- C10: the fused output never contains a pH-correction entry — the
combiner reads only crop recommendations and nutrient corrections — even
though the rule engine does compute pH corrections for pH < 6.0 or
pH > 8.0. -/
theorem fused_output_has_no_ph_corrections (ml_recs : List MLRec) (s : SoilSample) :
    (∀ x ∈ combineRecommendations ml_recs (ruleBasedRecommendations s),
      x.type ≠ RecKind.ph_correction) ∧
    (s.ph < 6 ∨ 8 < s.ph →
      ∃ r ∈ ruleBasedRecommendations s, r.ph_corrections ≠ []) := by
  constructor
  · intro x hx
    rcases mem_buildCandidates_cases (mem_of_mem_combineRecommendations hx) with
      ⟨m, _, rfl⟩ | ⟨rb, _, c, _, rfl⟩ | ⟨rb, _, n, _, rfl⟩ <;>
      simp [mlToCombined, cropToCombined, nutrientToCombined]
  · intro h
    refine ⟨_, List.mem_singleton_self _, ?_⟩
    show phCorrectionsOf s ≠ []
    unfold phCorrectionsOf
    rcases h with h | h
    · rw [if_pos h]
      simp
    · rw [if_neg (by linarith), if_pos h]
      simp

/-- Witness for C10 at pH = 5 with no ML candidates. -/
theorem fused_output_has_no_ph_corrections_witness :
    ((⟨50, 30, 30, 25, 60, 5, 100⟩ : SoilSample).ph < 6 ∨
      8 < (⟨50, 30, 30, 25, 60, 5, 100⟩ : SoilSample).ph) ∧
    (∀ x ∈ combineRecommendations []
        (ruleBasedRecommendations ⟨50, 30, 30, 25, 60, 5, 100⟩),
      x.type ≠ RecKind.ph_correction) ∧
    ∃ r ∈ ruleBasedRecommendations ⟨50, 30, 30, 25, 60, 5, 100⟩,
      r.ph_corrections ≠ [] :=
  ⟨Or.inl (by norm_num),
   (fused_output_has_no_ph_corrections [] ⟨50, 30, 30, 25, 60, 5, 100⟩).1,
   (fused_output_has_no_ph_corrections [] ⟨50, 30, 30, 25, 60, 5, 100⟩).2
     (Or.inl (by norm_num))⟩

end FertiSmart
